import Mathlib

/-!
Verification of the AEPyBaMM parameter-derivation pipeline
(`src/aepybamm/params.py`) against its natural-language specification.

The Python module is shallowly embedded:

* the mutable `pybamm.ParameterValues` mapping becomes an insertion-ordered
  association list `ParamMap` (the mapping data structure itself is an
  external collaborator, so only its dict-like lookup/update semantics are
  modelled);
* parameter values (floats, data arrays, synthesized callables) become the
  symbolic type `PValue`; externally synthesized callables are represented
  by symbolic constructors carrying exactly the data the Python code passes
  to the external builders;
* Python exceptions become `Except Err`;
* external collaborators (file resolution, base-set loading, lithium
  inventory, SOC conversion, initial concentrations, model factory, ...)
  become fields of an `Externals` structure, universally quantified in the
  theorems.

Constants and helpers imported from the repository's `sci_tools` /
`pybamm_tools` / `func` modules are not part of the provided source file;
where a claim depends on them they are modelled from the spec (each such
definition carries a doc comment starting `Modelled from the spec:`).
-/

namespace AEPB

/-- Python exception classes raised by the pipeline. -/
inductive Err where
  | valueError (msg : String)
  | notImplementedError (msg : String)
  | typeError (msg : String)
  | keyError (k : String)
deriving DecidableEq, Repr

/-- A parameter value: a scalar float, a tabular data array, or a
synthesized callable.  Callables produced by the external builders
(`_make_j0_func`, `_make_generic_func_ce_T`, `_scale_param` wrapping,
`_make_hysteresis_compatible`) are represented symbolically by a
constructor holding the data the Python code hands to the builder. -/
inductive PValue where
  /-- a plain scalar float -/
  | scalar (x : ℚ)
  /-- tabular (array) data -/
  | table (rows : List (ℚ × ℚ))
  /-- result of `_make_j0_func(coeffs_const, func_premul)` with
  `coeffs_const = {j0_ref, Ea, Tref}` -/
  | j0func (j0_ref Ea Tref : ℚ) (premul : PValue)
  /-- result of `_make_generic_func_ce_T(func_type, _unflatten(coeffs))` -/
  | genericFunc (func_type : String) (coeffs : List (String × PValue))
  /-- a parameter rescaled by a multiplicative wrapper -/
  | scaled (mul : ℚ) (v : PValue)
  /-- result of `_make_hysteresis_compatible` -/
  | hystCompat (v : PValue)

/-- Insertion-ordered association list with unique keys: the shallow model
of a Python `dict` / `pybamm.ParameterValues`. -/
abbrev AssocL (β : Type) := List (String × β)

/-- Key lookup (`d[k]` on success / `k in d`). -/
def alookup {β : Type} : AssocL β → String → Option β
  | [], _ => none
  | (k', v) :: rest, k => if k' = k then some v else alookup rest k

/-- `k in d`. -/
def acontains {β : Type} (m : AssocL β) (k : String) : Bool :=
  (alookup m k).isSome

/-- `del d[k]` (removing every binding of `k` keeps the unique-key
invariant without a side condition). -/
def aerase {β : Type} : AssocL β → String → AssocL β
  | [], _ => []
  | (k', v) :: rest, k =>
    if k' = k then aerase rest k else (k', v) :: aerase rest k

/-- `d[k] = v`: replace in place if present, else append (Python dicts
keep the original insertion position on overwrite). -/
def aset {β : Type} : AssocL β → String → β → AssocL β
  | [], k, v => [(k, v)]
  | (k', v') :: rest, k, v =>
    if k' = k then (k, v) :: aerase rest k else (k', v') :: aset rest k v

/-- `list(d)` -/
def akeys {β : Type} (m : AssocL β) : List String := m.map Prod.fst

/-- `d.update(l)` (`check_already_exists=False`). -/
def aupdate {β : Type} (m : AssocL β) (l : AssocL β) : AssocL β :=
  l.foldl (fun acc kv => aset acc kv.1 kv.2) m

abbrev ParamMap := AssocL PValue

/-- `d[k]`, raising `KeyError` when missing. -/
def pmGet (pm : ParamMap) (k : String) : Except Err PValue :=
  match alookup pm k with
  | some v => .ok v
  | none => .error (.keyError k)

/-- Coerce a parameter value into a float, as Python arithmetic /
comparison on a non-numeric value raises. -/
def toScalarE (v : PValue) : Except Err ℚ :=
  match v with
  | .scalar x => .ok x
  | _ => .error (.typeError "unsupported operand type for arithmetic")

/-- `d[k]` followed by use as a float. -/
def pmGetScalar (pm : ParamMap) (k : String) : Except Err ℚ := do
  toScalarE (← pmGet pm k)

/- String helpers mirroring Python `in`, `str.replace`, `str.lower`,
`str.partition`. -/

/-- Python `pat in s` (substring test). -/
def strContains (s pat : String) : Bool :=
  s.data.tails.any (fun t => pat.data.isPrefixOf t)

/-- Fuel-driven core of `str.replace` (replace every occurrence). -/
def replaceAux : Nat → List Char → List Char → List Char → List Char
  | 0, s, _, _ => s
  | _ + 1, [], _, _ => []
  | fuel + 1, c :: rest, pat, repl =>
    if pat ≠ [] ∧ pat.isPrefixOf (c :: rest) then
      repl ++ replaceAux fuel ((c :: rest).drop pat.length) pat repl
    else
      c :: replaceAux fuel rest pat repl

/-- Python `s.replace(pat, repl)`. -/
def strReplace (s pat repl : String) : String :=
  ⟨replaceAux (s.data.length + 1) s.data pat.data repl.data⟩

/-- Python `s.lower()`. -/
def strLower (s : String) : String := ⟨s.data.map Char.toLower⟩

/-- Fuel-driven scan for the first occurrence of a separator. -/
def partitionOnAux : Nat → List Char → List Char → List Char →
    Option (List Char × List Char)
  | 0, _, _, _ => none
  | fuel + 1, s, sep, acc =>
    if sep.isPrefixOf s then some (acc.reverse, s.drop sep.length)
    else
      match s with
      | [] => none
      | c :: rest => partitionOnAux fuel rest sep (c :: acc)

/-- Python `s.partition(sep)` restricted to its first and third
components (the code splits on the first occurrence of the marker). -/
def partitionOn (s sep : String) : String × String :=
  match partitionOnAux (s.data.length + 1) s.data sep.data [] with
  | some (before, after) => (⟨before⟩, ⟨after⟩)
  | none => (s, "")

/- Module-level constants of `params.py` (lines 32-50). -/

def VALID_MODEL_TYPES : List String := ["DFN", "SPMe", "SPM"]

def VALID_HYSTERESIS_MODELS : List String := ["none", "zero-state", "one-state"]

def VALID_HYSTERESIS_BRANCHES : List String := ["average", "charge", "discharge"]

def VALID_DEGRADATION_KEYS : List String :=
  ["LAM_NE", "LAM_PE", "LLI", "RI_far_NE", "RI_far_PE", "RI_electrolyte",
   "R0_addn [Ohm]"]

def PARAMS_HYSTERESIS_DIFF : List String :=
  ["lithiation OCP [V]", "delithiation OCP [V]", "OCP [V]",
   "OCP entropic change [V.K-1]"]

/-- Modelled from the spec: `ELECTRODES`, imported from the external
`sci_tools` module.  "Electrode: one of exactly two roles, negative or
positive. Drives naming conventions (`"{electrode} electrode ..."`)";
ordered (negative, positive) to match the `(neg, pos)` convention of the
`blended_electrode` argument. -/
def ELECTRODES : List String := ["Negative", "Positive"]

/-- Modelled from the spec: `HYSTERESIS_BRANCHES_ELECTRODE`, imported from
the external `sci_tools` module.  Per the spec, hysteresis data presence
means "both charge and discharge open-circuit-potential data exist for
that electrode/phase". -/
def HYSTERESIS_BRANCHES_ELECTRODE : List String := ["charge", "discharge"]

/-- Modelled from the spec: `HYSTERESIS_BRANCH_MAP`, imported from the
external `sci_tools` module.  Per the spec, a non-"average" branch
selection is applied "by renaming the selected branch's
open-circuit-potential data", so the selected branch resolves to its own
per-electrode branch key. -/
def HYSTERESIS_BRANCH_MAP (hysteresisBranch electrode : String) : String :=
  hysteresisBranch

/-- Modelled from the spec: `PYBAMM_MATERIAL_NAMES`, imported from the
external `pybamm_tools` module.  Per the spec, a phase prefix is "one of a
small fixed set of blended-material name prefixes (e.g., "Primary:",
"Secondary:")" and phase resolution validates that "both "Primary:" and
"Secondary:" tagged parameters must exist". -/
def PYBAMM_MATERIAL_NAMES : List String := ["Primary", "Secondary"]

/-- Modelled from the spec: `constants.F` from the external `pybamm`
package — Faraday's constant. -/
def FARADAY : ℚ := 96485.33212331001

/-- Modelled from the spec: `_scale_param`, imported from the external
`pybamm_tools` module.  "rescale each electrode's exchange-current-density
parameter (which may be a scalar or a synthesized function) ...; rescaling
a function means wrapping it with a multiplicative factor, not
re-fitting it." -/
def _scale_param (v : PValue) (mul : ℚ) : PValue :=
  match v with
  | .scalar x => .scalar (x * mul)
  | v => .scaled mul v

/-- A resolved per-electrode hysteresis model: a bare string for a
single-phase electrode, a tuple of per-phase strings otherwise
(`get_hysteresis_model_by_electrode`, lines 445-452). -/
inductive HystResolved where
  | single (s : String)
  | multi (ss : List String)

/-- A model-option value: a string, or a (possibly nested) tuple. -/
inductive OptVal where
  | str (s : String)
  | tuple (vs : List OptVal)

abbrev ModelOpts := AssocL OptVal

def hystResolvedToOpt (h : HystResolved) : OptVal :=
  match h with
  | .single s => .str s
  | .multi ss => .tuple (ss.map .str)

/-- A PyBaMM model event (only its name is inspected by the pipeline). -/
structure Event where
  name : String
deriving DecidableEq, Repr

/-- The external model object: the options it was constructed with plus
its mutable event list. -/
structure Model where
  opts : ModelOpts
  events : List Event

/-- `SOC_definition` argument: a dict with required key "data" and
optional key "method" (the required-key/dict-type runtime checks of
`_validate_args_get_params` are satisfied by this typed embedding). -/
structure SOCDef where
  data : List (ℚ × ℚ)
  method : Option String

/-- The external collaborators consumed by `get_params`, kept abstract:
every theorem quantifies over them (spec §6).  `validate_PyBaMM_version`
and the source-file parser are out of scope per spec §1; file resolution
(`_get_bpx_src`, which performs the one file read) is absorbed into
`get_bpx_src`. -/
structure Externals where
  /-- opaque data produced by the external hysteresis initial-branch
  calculator and consumed by the initial-concentration solver -/
  HInit : Type
  /-- `_get_bpx_src` (file read + parent/index resolution) -/
  get_bpx_src : String → Option String → Except Err String
  /-- `get_default_parameter_values` (base-set loader) -/
  get_default_parameter_values : String → ParamMap
  /-- `calc_lithium_inventory` -/
  calc_lithium_inventory : ParamMap → ℚ
  /-- `get_ocv_thermodynamic` (rows (SOC, OCV)) -/
  get_ocv_thermodynamic : ParamMap → List (ℚ × ℚ)
  /-- `convert_soc` (SOC_init, data, ocv_thermodynamic, method) -/
  convert_soc : ℚ → List (ℚ × ℚ) → List (ℚ × ℚ) → String → ℚ
  /-- `np.interp` (x, xp-fp rows) -/
  interp : ℚ → List (ℚ × ℚ) → ℚ
  /-- `_get_hysteresis_init_branch_electrode` -/
  get_hyst_init : List HystResolved → String → HInit
  /-- `add_initial_concentrations` (pm, phases, init branches, SOC_init,
  update_bounds) -/
  add_initial_concentrations :
    ParamMap → List (List String) → Option HInit → ℚ → Bool → ParamMap
  /-- `get_model_class(model_type)(options=...)` -/
  make_model : String → ModelOpts → Model
  /-- `_add_hysteresis_heat_source` -/
  patch_heat_source : Model → Model

/-- The keyword arguments of `get_params` other than `fp`. -/
structure Args where
  parameter_set : Option String
  SOC_init : ℚ
  SOC_definition : Option SOCDef
  OCV_init : Option ℚ
  degradation_state : Option (List (String × ℚ))
  htc_ext : Option ℚ
  model_type : String
  hysteresis_model : String
  hysteresis_branch : String
  hysteresis_preceding_state : String
  blended_electrode : Option (Bool × Bool)
  add_hysteresis_heat_source : Bool
  extra_model_opts : Option (List (String × String))
  trim_model_events : Bool

/- Component functions of `params.py`, in source order. -/

/-- `_validate_args_get_params`, enum checks (lines 511-533). -/
def _validate_enums (model_type hysteresis_model hysteresis_branch
    hysteresis_preceding_state : String) : Except Err Unit := do
  if !(VALID_MODEL_TYPES.contains model_type) then
    throw (.valueError ("Unsupported model type '" ++ model_type ++
      "'. Supported model types are: " ++
      String.intercalate ", " VALID_MODEL_TYPES))
  if !(VALID_HYSTERESIS_MODELS.contains hysteresis_model) then
    throw (.valueError ("Unsupported hysteresis model type '" ++
      hysteresis_model ++ "'. Supported hysteresis model types are: " ++
      String.intercalate ", " VALID_HYSTERESIS_MODELS))
  if !(VALID_HYSTERESIS_BRANCHES.contains hysteresis_branch) then
    throw (.valueError ("Unsupported hysteresis branch '" ++
      hysteresis_branch ++ "'. Supported model types are: " ++
      String.intercalate ", " VALID_HYSTERESIS_BRANCHES))
  if !(VALID_HYSTERESIS_BRANCHES.contains hysteresis_preceding_state) then
    throw (.valueError ("Unsupported hysteresis preceding state '" ++
      hysteresis_preceding_state ++ "'. Supported model types are: " ++
      String.intercalate ", " VALID_HYSTERESIS_BRANCHES))

/-- `_validate_args_get_params`, heat-source check (lines 535-538). -/
def _validate_heat_source (add_hysteresis_heat_source : Bool)
    (hysteresis_model : String) : Except Err Unit :=
  if add_hysteresis_heat_source && hysteresis_model ≠ "one-state" then
    throw (.notImplementedError
      "Hysteresis heat source can only be added to 'one-state' hysteresis model.")
  else pure ()

/-- `_validate_args_get_params`, degradation-state block (lines 540-553);
the `isinstance(_, dict)` check is satisfied by the typed embedding. -/
def _validate_degradation (degradation_state : Option (List (String × ℚ)))
    (blended_electrode : Bool × Bool) (hysteresis_model : String) :
    Except Err Unit := do
  match degradation_state with
  | some ds =>
    if blended_electrode.1 || blended_electrode.2 ||
        hysteresis_model ≠ "none" then
      throw (.notImplementedError
        "Degradation state is only supported for single-phase electrodes with no hysteresis.")
    ds.foldlM (fun _ kv =>
      if VALID_DEGRADATION_KEYS.contains kv.1 then pure ()
      else throw (.valueError ("Unsupported field in 'degradation_state': " ++
        kv.1 ++ ". Supported fields are: " ++
        String.intercalate ", " VALID_DEGRADATION_KEYS))) ()
  | none => pure ()

/-- `_validate_args_get_params`, thermal-option check (lines 555-562). -/
def _validate_thermal (extra_model_opts : List (String × String))
    (htc_ext : Option ℚ) : Except Err Unit :=
  match alookup extra_model_opts "thermal", htc_ext with
  | some t, none =>
    if t ≠ "isothermal" then
      throw (.valueError
        "When using a thermal model, specify the heat transfer coefficient in 'get_params' with keyword argument 'htc_ext'.")
    else pure ()
  | _, _ => pure ()

/-- `_validate_args_get_params`, OCV-initialisation check (lines 564-567). -/
def _validate_OCV_init (OCV_init : Option ℚ)
    (blended_electrode : Bool × Bool) (hysteresis_model : String) :
    Except Err Unit :=
  match OCV_init with
  | some _ =>
    if blended_electrode.1 || blended_electrode.2 ||
        hysteresis_model ≠ "none" then
      throw (.notImplementedError
        "Voltage-based initialisation is only supported for single-phase electrodes with no hysteresis.")
    else pure ()
  | none => pure ()

/-- `_validate_args_get_params`, SOC-definition check (lines 570-577);
the dict-type / "data"-key checks are satisfied by the typed embedding. -/
def _validate_SOC_definition (SOC_definition : Option SOCDef)
    (blended_electrode : Bool × Bool) (hysteresis_model : String) :
    Except Err Unit :=
  match SOC_definition with
  | some _ =>
    if blended_electrode.1 || blended_electrode.2 ||
        hysteresis_model ≠ "none" then
      throw (.notImplementedError
        "OCV-SOC conversion is only supported for single-phase electrodes with no hysteresis.")
    else pure ()
  | none => pure ()

/-- `_validate_args_get_params` (lines 495-577), in source check order. -/
def _validate_args_get_params (SOC_definition : Option SOCDef)
    (OCV_init : Option ℚ) (degradation_state : Option (List (String × ℚ)))
    (htc_ext : Option ℚ)
    (model_type hysteresis_model hysteresis_branch
      hysteresis_preceding_state : String)
    (blended_electrode : Bool × Bool) (add_hysteresis_heat_source : Bool)
    (extra_model_opts : List (String × String)) : Except Err Unit := do
  _validate_enums model_type hysteresis_model hysteresis_branch
    hysteresis_preceding_state
  _validate_heat_source add_hysteresis_heat_source hysteresis_model
  _validate_degradation degradation_state blended_electrode hysteresis_model
  _validate_thermal extra_model_opts htc_ext
  _validate_OCV_init OCV_init blended_electrode hysteresis_model
  _validate_SOC_definition SOC_definition blended_electrode hysteresis_model

def tag_j0 : String := "exchange-current density pre-multiplier"

/-- `param.replace(tag_j0, "reaction rate constant [mol.m-2.s-1]")`. -/
def j0_rate_key (param : String) : String :=
  strReplace param tag_j0 "reaction rate constant [mol.m-2.s-1]"

/-- `param.replace(tag_j0, "reaction rate constant activation energy [J.mol-1]")`. -/
def j0_Ea_key (param : String) : String :=
  strReplace param tag_j0 "reaction rate constant activation energy [J.mol-1]"

/-- `param.replace("pre-multiplier", "[A.m-2]")`. -/
def j0_canonical_key (param : String) : String :=
  strReplace param "pre-multiplier" "[A.m-2]"

/-- One iteration of the `build_exchange_current_density` loop
(lines 365-378): synthesize the combined exchange-current density and
delete the pre-multiplier and reaction-rate-constant entries. -/
def build_j0_step (pm : ParamMap) (param : String) : Except Err ParamMap := do
  let j0_ref := FARADAY * (← pmGetScalar pm (j0_rate_key param))
  let Ea ← pmGetScalar pm (j0_Ea_key param)
  let Tref ← pmGetScalar pm "Reference temperature [K]"
  let premul ← pmGet pm param
  let pm := aset pm (j0_canonical_key param) (.j0func j0_ref Ea Tref premul)
  let pm := aerase pm param
  pure (aerase pm (j0_rate_key param))

/-- `build_exchange_current_density` (lines 361-378). -/
def build_exchange_current_density (pm : ParamMap) : Except Err ParamMap :=
  ((akeys pm).filter (fun param => strContains param tag_j0)).foldlM
    build_j0_step pm

/-- `build_BPX_incompatible` (lines 381-405): synthesize every parameter
tagged with a `" func_type "` marker from its sibling coefficient rows
and delete the consumed rows (marker included). -/
def build_BPX_incompatible (pm : ParamMap) : ParamMap :=
  let func_headers := (akeys pm).filterMap (fun s =>
    if strContains s " func_type " then some (partitionOn s " func_type ")
    else none)
  func_headers.foldl (fun pm pf =>
    let param := pf.1
    let func_type := pf.2
    let coeffs := (pm.filter (fun kv =>
        strContains kv.1 param && kv.1 != param &&
        !(strContains kv.1 "func_type"))).map
      (fun kv => (strReplace kv.1 (param ++ " ") "", kv.2))
    let pm := aset pm param (.genericFunc func_type coeffs)
    pm.filter (fun kv => !(strContains kv.1 param && kv.1 != param))) pm

/-- `apply_htc_ext` (lines 316-323). -/
def apply_htc_ext (pm : ParamMap) (htc_ext : ℚ) : ParamMap :=
  aset pm "Total heat transfer coefficient [W.m-2.K-1]" (.scalar htc_ext)

/-- Lookup in the degradation-state dict. -/
def dsGet (ds : List (String × ℚ)) (k : String) : Option ℚ := alookup ds k

def NCYC_KEY : String := "AE: Total cyclable lithium inventory [mol.m-2]"

/-- LAM processing of one volume fraction
(`updated_volume_fractions[param] *= mul_lam`, lines 279-282). -/
def applyLAM (ds : List (String × ℚ)) (loss_factor : String) (v : PValue) :
    Except Err PValue :=
  match dsGet ds loss_factor with
  | some l => do pure (.scalar ((← toScalarE v) * (1 - l)))
  | none => pure v

/-- RI_far processing of one kinetic parameter (lines 290-293),
returning the `degradation_scaled_vals` entries it contributes. -/
def riFarEntry (pm : ParamMap) (ds : List (String × ℚ))
    (loss_factor param : String) : Except Err ParamMap :=
  match dsGet ds loss_factor with
  | some y => do
    pure [(param, _scale_param (← pmGet pm param) (1 / (1 + y)))]
  | none => pure []

/-- The cyclable-lithium inventory written by `apply_degradation_state`
(lines 263-272): computed from the beginning-of-life parameter set and
reduced by the LLI fraction when present. -/
def lli_scaled (ext : Externals) (pm : ParamMap)
    (ds : List (String × ℚ)) : ℚ :=
  match dsGet ds "LLI" with
  | some lli => ext.calc_lithium_inventory pm * (1 - lli)
  | none => ext.calc_lithium_inventory pm

/-- Electrolyte resistance-increase entries (lines 295-298). -/
def riElectrolyteEntries (pm : ParamMap) (ds : List (String × ℚ)) :
    Except Err ParamMap :=
  match dsGet ds "RI_electrolyte" with
  | some x => do
    let c ← pmGet pm "Electrolyte conductivity [S.m-1]"
    let d ← pmGet pm "Electrolyte diffusivity [m2.s-1]"
    pure [("Electrolyte conductivity [S.m-1]", _scale_param c (1 / (1 + x))),
          ("Electrolyte diffusivity [m2.s-1]", _scale_param d (1 / (1 + x)))]
  | none => pure []

/-- Supplementary series-resistance entry (lines 300-308). -/
def r0Entry (pm : ParamMap) (ds : List (String × ℚ)) :
    Except Err ParamMap :=
  match dsGet ds "R0_addn [Ohm]" with
  | some x => do
    let R0_existing ← (match alookup pm "Contact resistance [Ohm]" with
      | some v => toScalarE v
      | none => pure 0)
    pure [("Contact resistance [Ohm]", PValue.scalar (R0_existing + x))]
  | none => pure []

/-- `apply_degradation_state` (lines 260-313).  All scaled values are
computed from the incoming mapping and written back in one batch
`update` at the end.  The keys contributed to `degradation_scaled_vals`
are pairwise-distinct string constants, so building the Python dict in
insertion order is list concatenation. -/
def apply_degradation_state (ext : Externals) (pm : ParamMap)
    (degradation_state : List (String × ℚ)) : Except Err ParamMap := do
  let vfN ← pmGet pm "Negative electrode active material volume fraction"
  let vfP ← pmGet pm "Positive electrode active material volume fraction"
  let vfN ← applyLAM degradation_state "LAM_NE" vfN
  let vfP ← applyLAM degradation_state "LAM_PE" vfP
  let riN ← riFarEntry pm degradation_state "RI_far_NE"
    "Negative electrode exchange-current density [A.m-2]"
  let riP ← riFarEntry pm degradation_state "RI_far_PE"
    "Positive electrode exchange-current density [A.m-2]"
  let riE ← riElectrolyteEntries pm degradation_state
  let r0 ← r0Entry pm degradation_state
  let degradation_scaled_vals : ParamMap :=
    [(NCYC_KEY, .scalar (lli_scaled ext pm degradation_state)),
     ("Negative electrode active material volume fraction", vfN),
     ("Positive electrode active material volume fraction", vfP)] ++
    riN ++ riP ++ riE ++ r0
  pure (aupdate pm degradation_scaled_vals)

/-- `_get_phases_by_electrode` (lines 326-332). -/
def _get_phases_by_electrode (blended_electrode : Bool × Bool) :
    List (List String) :=
  [if blended_electrode.1 then PYBAMM_MATERIAL_NAMES.map (· ++ ": ")
   else [""],
   if blended_electrode.2 then PYBAMM_MATERIAL_NAMES.map (· ++ ": ")
   else [""]]

/-- `_validate_phases_by_electrode` (lines 335-358). -/
def _validate_phases_by_electrode (pm : ParamMap)
    (phases_by_electrode : List (List String)) : Except Err Unit := do
  if (phases_by_electrode.getD 1 []).length > 1 then
    throw (.valueError "Positive electrode blends are not yet supported.")
  (ELECTRODES.zip phases_by_electrode).foldlM (fun _ ep => do
    let electrode := ep.1
    let phases := ep.2
    if phases.any (fun p => p ≠ "") then
      if !((akeys pm).any (fun k => strContains k "Primary:") &&
           (akeys pm).any (fun k => strContains k "Secondary:")) then
        throw (.valueError ("No parameter data found to treat " ++
          strLower electrode ++ " electrode as blended material. " ++
          "Try disabling the 'blended_electrode' keyword argument to get_params()."))
      else pure ()
    else
      if !(acontains pm ("Maximum concentration in " ++ strLower electrode ++
          " electrode [mol.m-3]")) then
        throw (.valueError ("No parameter data to treat " ++
          strLower electrode ++ " electrode as single-material. " ++
          "Try setting the 'blended_electrode' keyword argument to get_params()."))
      else pure ()) ()

/-- `f"{phase + electrode} electrode {branch} OCP [V]"`. -/
def ocp_branch_key (phase electrode branch : String) : String :=
  phase ++ electrode ++ " electrode " ++ branch ++ " OCP [V]"

/-- `f"{phase + electrode} electrode OCP [V]"` (the canonical OCP key). -/
def ocp_key (phase electrode : String) : String :=
  phase ++ electrode ++ " electrode OCP [V]"

/-- `_has_hysteresis_data` (lines 408-414). -/
def _has_hysteresis_data (pm : ParamMap) (electrode phase : String) : Bool :=
  HYSTERESIS_BRANCHES_ELECTRODE.all (fun branch =>
    acontains pm (ocp_branch_key phase electrode branch))

/-- The body of the `apply_hysteresis_branch` phase loop (lines 421-430):
move the branch OCP data named by the current value of the `branch`
variable to the canonical OCP parameter and delete the branch
parameters.  The result carries the mapping together with the value of
`branch` after the body: the deletion loop `for branch in
HYSTERESIS_BRANCHES_ELECTRODE` (line 429) rebinds the outer `branch`
variable, leaving it at the last list entry for any later phase of the
same electrode.  Under the `_has_hysteresis_data` guard the source
branch key is present when `branch` names a branch of the list, so the
`getD` default is never returned there. -/
def apply_branch_step (pm : ParamMap) (electrode branch phase : String) :
    ParamMap × String :=
  if _has_hysteresis_data pm electrode phase then
    let pm := aset pm (ocp_key phase electrode)
      ((alookup pm (ocp_branch_key phase electrode branch)).getD (.scalar 0))
    HYSTERESIS_BRANCHES_ELECTRODE.foldl (fun st b =>
      (aerase st.1 (ocp_branch_key phase electrode b), b)) (pm, branch)
  else (pm, branch)

/-- `apply_hysteresis_branch` (lines 417-431).  `branch` is reassigned
from `HYSTERESIS_BRANCH_MAP` at each electrode (line 419) and threaded
through the phase loop, because the deletion loop of the body shadows
it. -/
def apply_hysteresis_branch (pm : ParamMap) (hysteresis_branch : String)
    (phases_by_electrode : List (List String)) : ParamMap :=
  (ELECTRODES.zip phases_by_electrode).foldl (fun pm ep =>
    (ep.2.foldl (fun st phase => apply_branch_step st.1 ep.1 st.2 phase)
      (pm, HYSTERESIS_BRANCH_MAP hysteresis_branch ep.1)).1) pm

/-- `get_hysteresis_model_by_electrode` (lines 433-454). -/
def get_hysteresis_model_by_electrode (hysteresis_model : String)
    (pm : ParamMap) (electrode : String) (phases : List String) :
    Except Err HystResolved := do
  let hysteresis_model_PyBaMM ←
    if hysteresis_model = "zero-state" then pure "current sigmoid"
    else if hysteresis_model = "one-state" then pure "Wycisk"
    else throw (.valueError ("Invalid hysteresis model: " ++ hysteresis_model))
  let hysteresis_model_by_electrode := phases.map (fun phase =>
    if _has_hysteresis_data pm electrode phase then hysteresis_model_PyBaMM
    else "single")
  if phases.length = 1 then
    pure (.single (hysteresis_model_by_electrode.headD "single"))
  else
    pure (.multi hysteresis_model_by_electrode)

/-- `apply_one_state_hysteresis` (lines 457-484). -/
def apply_one_state_hysteresis (pm : ParamMap)
    (use_hysteresis : List HystResolved)
    (phases_by_electrode : List (List String)) : Except Err ParamMap :=
  ((ELECTRODES.zip phases_by_electrode).zip use_hysteresis).foldlM
    (fun pm x => do
      let electrode := x.1.1
      let phases := x.1.2
      let use_hysteresis_electrode := match x.2 with
        | .single s => [s]
        | .multi l => l
      (phases.zip use_hysteresis_electrode).foldlM (fun pm pu => do
        let phase := pu.1
        if pu.2 = "Wycisk" then do
          let key_switch := phase ++ electrode ++
            " particle hysteresis switching factor"
          (match alookup pm key_switch with
           | some (.scalar x) =>
             if x ≠ 0 then
               throw (.valueError (key_switch ++
                 " only supported with zero value."))
             else pure ()
           | some _ =>
             throw (.valueError (key_switch ++
               " only supported with zero value."))
           | none => pure ())
          let key_init := phase ++ "Initial hysteresis state in " ++
            strLower electrode ++ " electrode"
          let pm := aset (aset pm key_switch (.scalar 0)) key_init (.scalar 0)
          PARAMS_HYSTERESIS_DIFF.foldlM (fun pm param => do
            let key := phase ++ electrode ++ " electrode " ++ param
            pure (aset pm key (.hystCompat (← pmGet pm key)))) pm
        else pure pm) pm) pm

/-- `apply_trim_model_events` (lines 487-492). -/
def apply_trim_model_events (model : Model) (SOC_init : ℚ)
    (SOC_tol : ℚ := 1/20) : Model :=
  if SOC_init > 1 - SOC_tol then
    { model with events := model.events.filter (fun event =>
        !(strContains event.name "Maximum voltage")) }
  else if SOC_init < SOC_tol then
    { model with events := model.events.filter (fun event =>
        !(strContains event.name "Minimum voltage")) }
  else model

/-- `convert_soc_init` (lines 241-257). -/
def convert_soc_init (ext : Externals) (SOC_init : ℚ) (OCV_init : Option ℚ)
    (SOC_definition : Option SOCDef) (pm : ParamMap) : ℚ :=
  match OCV_init with
  | some ocv =>
    ext.interp ocv ((ext.get_ocv_thermodynamic pm).map (fun r => (r.2, r.1)))
  | none =>
    match SOC_definition with
    | some sd =>
      ext.convert_soc SOC_init sd.data (ext.get_ocv_thermodynamic pm)
        (sd.method.getD "voltage")
    | none => SOC_init

/-- `_combine_model_opts` (lines 609-620); the error message is abridged
to the offending key. -/
def _combine_model_opts (required_model_opts : ModelOpts)
    (extra_model_opts : List (String × String)) : Except Err ModelOpts := do
  extra_model_opts.foldlM (fun _ kv =>
    if acontains required_model_opts kv.1 then
      throw (.valueError ("Required setting '" ++ kv.1 ++
        "', derived from other arguments to get_params(), cannot be replaced from 'extra_model_opts'."))
    else pure ()) ()
  pure (extra_model_opts.foldl (fun m kv => aset m kv.1 (.str kv.2))
    required_model_opts)

/-- The zero-filtering of `degradation_state` in `get_params`
(lines 146-154): drop zero-valued entries; treat an (initially or
thereby) empty state as absent. -/
def filterDegradationState (degradation_state : Option (List (String × ℚ))) :
    Option (List (String × ℚ)) :=
  match degradation_state with
  | some l =>
    match l.filter (fun kv => kv.2 ≠ 0) with
    | [] => none
    | l' => some l'
  | none => none

/-- The contact-resistance inspection of `get_params` (lines 160-168):
whether the "contact resistance" model option must be set.  Python
comparison of a non-numeric parameter value with `0` raises. -/
def contact_resistance_required (pm : ParamMap) : Except Err Bool :=
  match alookup pm "Contact resistance [Ohm]" with
  | some (.scalar x) => .ok (decide (x > 0))
  | some _ => .error (.typeError "'>' not supported for this value")
  | none => .ok false

/-- The defaults declared in the `get_params` signature (lines 53-69). -/
def defaultArgs : Args where
  parameter_set := none
  SOC_init := 1
  SOC_definition := none
  OCV_init := none
  degradation_state := none
  htc_ext := none
  model_type := "DFN"
  hysteresis_model := "none"
  hysteresis_branch := "average"
  hysteresis_preceding_state := "average"
  blended_electrode := none
  add_hysteresis_heat_source := false
  extra_model_opts := none
  trim_model_events := true

/-- The hysteresis-handling section of `get_params` (lines 181-216),
returning the updated mapping, the data for initial-concentration
resolution, and the updated required model options. -/
def resolve_hysteresis (ext : Externals)
    (hysteresis_model hysteresis_branch hysteresis_preceding_state : String)
    (add_hysteresis_heat_source : Bool) (pv : ParamMap)
    (phases_by_electrode : List (List String)) (required : ModelOpts) :
    Except Err (ParamMap × Option ext.HInit × ModelOpts) :=
  if hysteresis_model = "none" then
    let pv := if hysteresis_branch ≠ "average" then
        apply_hysteresis_branch pv hysteresis_branch phases_by_electrode
      else pv
    pure (pv, none, required)
  else do
    let use_hysteresis ← (ELECTRODES.zip phases_by_electrode).mapM
      (fun ep => get_hysteresis_model_by_electrode hysteresis_model pv
        ep.1 ep.2)
    let pv ← if hysteresis_model = "one-state" then
        apply_one_state_hysteresis pv use_hysteresis phases_by_electrode
      else pure pv
    let hysteresis_init_branches :=
      ext.get_hyst_init use_hysteresis hysteresis_preceding_state
    let required := aset required "open-circuit potential"
      (.tuple (use_hysteresis.map hystResolvedToOpt))
    let required := if add_hysteresis_heat_source then
        aset required "calculate heat source for isothermal models"
          (.str "true")
      else required
    pure (pv, some hysteresis_init_branches, required)

/-- `get_params` up to and including the degradation-state application
(lines 125-157): validation, source resolution, base-set load, function
synthesis, heat-transfer coefficient, degradation scaling.  Its result is
the state of the parameter mapping entering phase resolution. -/
def pv_before_phase_validation (ext : Externals) (fp : String) (a : Args) :
    Except Err ParamMap := do
  let blended_electrode := a.blended_electrode.getD (false, false)
  let extra_model_opts := a.extra_model_opts.getD []
  _validate_args_get_params a.SOC_definition a.OCV_init a.degradation_state
    a.htc_ext a.model_type a.hysteresis_model a.hysteresis_branch
    a.hysteresis_preceding_state blended_electrode
    a.add_hysteresis_heat_source extra_model_opts
  let fp_bpx ← ext.get_bpx_src fp a.parameter_set
  let pv := ext.get_default_parameter_values fp_bpx
  let pv ← build_exchange_current_density pv
  let pv := build_BPX_incompatible pv
  let pv := match a.htc_ext with
    | some htc => apply_htc_ext pv htc
    | none => pv
  match filterDegradationState a.degradation_state with
  | some ds => apply_degradation_state ext pv ds
  | none => pure pv

/-- `get_params` from the contact-resistance inspection to the end
(lines 159-238). -/
def get_params_resolve (ext : Externals) (a : Args) (pv : ParamMap) :
    Except Err (ParamMap × Model) := do
  let blended_electrode := a.blended_electrode.getD (false, false)
  let extra_model_opts := a.extra_model_opts.getD []
  let degradation_state := filterDegradationState a.degradation_state
  let contact ← contact_resistance_required pv
  let required : ModelOpts :=
    if contact then [("contact resistance", .str "true")] else []
  let phases_by_electrode := _get_phases_by_electrode blended_electrode
  _validate_phases_by_electrode pv phases_by_electrode
  let required := aset required "particle phases"
    (.tuple (phases_by_electrode.map (fun phases =>
      .str (toString phases.length))))
  let res ← resolve_hysteresis ext a.hysteresis_model a.hysteresis_branch
    a.hysteresis_preceding_state a.add_hysteresis_heat_source pv
    phases_by_electrode required
  let pv := res.1
  let hysteresis_init_branches := res.2.1
  let required := res.2.2
  let pv := ext.add_initial_concentrations pv phases_by_electrode
    hysteresis_init_branches
    (convert_soc_init ext a.SOC_init a.OCV_init a.SOC_definition pv)
    degradation_state.isSome
  let model_opts ← _combine_model_opts required extra_model_opts
  let model := ext.make_model a.model_type model_opts
  let model := if a.add_hysteresis_heat_source then
      ext.patch_heat_source model
    else model
  let model := if a.trim_model_events then
      apply_trim_model_events model a.SOC_init
    else model
  pure (pv, model)

/-- `get_params` (lines 53-238): the full pipeline orchestrator. -/
def get_params (ext : Externals) (fp : String) (a : Args) :
    Except Err (ParamMap × Model) := do
  let pv ← pv_before_phase_validation ext fp a
  get_params_resolve ext a pv

/-- Whether a pipeline call returned normally. -/
def isOkE {α : Type} (x : Except Err α) : Bool :=
  match x with
  | .ok _ => true
  | .error _ => false

/- Helper lemmas about the embedding's monadic plumbing and the
association-list operations. -/

@[simp] theorem ok_bind {α β : Type} (a : α) (f : α → Except Err β) :
    (Except.ok a >>= f) = f a := rfl

@[simp] theorem error_bind {α β : Type} (e : Err) (f : α → Except Err β) :
    ((Except.error e : Except Err α) >>= f) = Except.error e := rfl

@[simp] theorem isOkE_ok {α : Type} (a : α) :
    isOkE (Except.ok a) = true := rfl

@[simp] theorem isOkE_error {α : Type} (e : Err) :
    isOkE (Except.error e : Except Err α) = false := rfl

theorem bind_ok_inv {α β : Type} {x : Except Err α} {f : α → Except Err β}
    {r : β} (h : (x >>= f) = .ok r) : ∃ a, x = .ok a ∧ f a = .ok r := by
  cases x with
  | ok a => exact ⟨a, rfl, h⟩
  | error e => simp at h

theorem isOkE_bind_inv {α β : Type} {x : Except Err α}
    {f : α → Except Err β} (h : isOkE (x >>= f) = true) :
    ∃ a, x = .ok a ∧ isOkE (f a) = true := by
  cases x with
  | ok a => exact ⟨a, rfl, h⟩
  | error e => simp at h

theorem isOkE_bind_false {α β : Type} (x : Except Err α)
    (f : α → Except Err β) (h : ∀ a, isOkE (f a) = false) :
    isOkE (x >>= f) = false := by
  cases x with
  | ok a => exact h a
  | error e => rfl

@[simp] theorem alookup_nil {β : Type} (k : String) :
    alookup ([] : AssocL β) k = none := rfl

@[simp] theorem alookup_cons {β : Type} (k' : String) (v : β) (m : AssocL β)
    (k : String) :
    alookup ((k', v) :: m) k = if k' = k then some v else alookup m k := rfl

@[simp] theorem aerase_nil {β : Type} (k : String) :
    aerase ([] : AssocL β) k = [] := rfl

@[simp] theorem aerase_cons {β : Type} (k' : String) (v : β) (m : AssocL β)
    (k : String) :
    aerase ((k', v) :: m) k =
      if k' = k then aerase m k else (k', v) :: aerase m k := rfl

@[simp] theorem aset_nil {β : Type} (k : String) (v : β) :
    aset ([] : AssocL β) k v = [(k, v)] := rfl

@[simp] theorem aset_cons {β : Type} (k' : String) (v' : β) (m : AssocL β)
    (k : String) (v : β) :
    aset ((k', v') :: m) k v =
      if k' = k then (k, v) :: aerase m k else (k', v') :: aset m k v := rfl

theorem alookup_aerase_self {β : Type} (m : AssocL β) (k : String) :
    alookup (aerase m k) k = none := by
  induction m with
  | nil => rfl
  | cons p m ih =>
    obtain ⟨pk, pv⟩ := p
    by_cases h : pk = k
    · simpa [h] using ih
    · simpa [h] using ih

theorem alookup_aerase_ne {β : Type} (m : AssocL β) {k k' : String}
    (h : k' ≠ k) : alookup (aerase m k) k' = alookup m k' := by
  have hkk : ¬(k = k') := fun he => h he.symm
  induction m with
  | nil => rfl
  | cons p m ih =>
    obtain ⟨pk, pv⟩ := p
    by_cases hp : pk = k
    · simp [hp, hkk, ih]
    · by_cases hq : pk = k'
      · simp [hp, hq, h]
      · simp [hp, hq, ih]

theorem alookup_aset_self {β : Type} (m : AssocL β) (k : String) (v : β) :
    alookup (aset m k v) k = some v := by
  induction m with
  | nil => simp
  | cons p m ih =>
    obtain ⟨pk, pv⟩ := p
    by_cases hp : pk = k
    · simp [hp]
    · simp [hp, ih]

theorem alookup_aset_ne {β : Type} (m : AssocL β) {k k' : String} (v : β)
    (h : k' ≠ k) : alookup (aset m k v) k' = alookup m k' := by
  have hkk : ¬(k = k') := fun he => h he.symm
  induction m with
  | nil => simp [hkk]
  | cons p m ih =>
    obtain ⟨pk, pv⟩ := p
    by_cases hp : pk = k
    · simp [hp, hkk, alookup_aerase_ne m h]
    · by_cases hq : pk = k'
      · simp [hp, hq, h]
      · simp [hp, hq, ih]

@[simp] theorem aupdate_nil {β : Type} (m : AssocL β) :
    aupdate m [] = m := rfl

@[simp] theorem aupdate_cons {β : Type} (m : AssocL β) (k : String) (v : β)
    (l : AssocL β) : aupdate m ((k, v) :: l) = aupdate (aset m k v) l := rfl

theorem aupdate_append {β : Type} (m : AssocL β) (l1 l2 : AssocL β) :
    aupdate m (l1 ++ l2) = aupdate (aupdate m l1) l2 := by
  simp [aupdate, List.foldl_append]

theorem alookup_aupdate_not_mem {β : Type} (m : AssocL β) (l : AssocL β)
    {k : String} (h : ∀ p ∈ l, p.1 ≠ k) :
    alookup (aupdate m l) k = alookup m k := by
  induction l generalizing m with
  | nil => rfl
  | cons p l ih =>
    rw [show aupdate m (p :: l) = aupdate (aset m p.1 p.2) l from rfl,
      ih (aset m p.1 p.2) (fun q hq => h q (List.mem_cons_of_mem p hq)),
      alookup_aset_ne m p.2 (fun he => h p (List.mem_cons_self p l) he.symm)]

theorem pmGet_of_lookup {pm : ParamMap} {k : String} {v : PValue}
    (h : alookup pm k = some v) : pmGet pm k = .ok v := by
  simp [pmGet, h]

theorem pmGetScalar_of_lookup {pm : ParamMap} {k : String} {x : ℚ}
    (h : alookup pm k = some (.scalar x)) : pmGetScalar pm k = .ok x := by
  simp [pmGetScalar, pmGet, h, toScalarE]

/- Shared concrete fixtures used by the witnesses and counterexamples. -/

/-- A minimal single-phase base parameter set. -/
def baseTest : ParamMap :=
  [("Maximum concentration in negative electrode [mol.m-3]", .scalar 1000),
   ("Maximum concentration in positive electrode [mol.m-3]", .scalar 2000)]

/-- Concrete external collaborators loading the given base set. -/
def extWith (base : ParamMap) : Externals where
  HInit := Unit
  get_bpx_src := fun fp _ => .ok fp
  get_default_parameter_values := fun _ => base
  calc_lithium_inventory := fun _ => 7
  get_ocv_thermodynamic := fun _ => []
  convert_soc := fun s _ _ _ => s
  interp := fun x _ => x
  get_hyst_init := fun _ _ => ()
  add_initial_concentrations := fun pm _ _ _ _ => pm
  make_model := fun _ opts => { opts := opts, events := [] }
  patch_heat_source := fun m => m

/-- A parameter set holding a negative-electrode exchange-current-density
pre-multiplier together with its three sibling inputs. -/
def C2pm : ParamMap :=
  [("Negative electrode exchange-current density pre-multiplier", .scalar 2),
   ("Negative electrode reaction rate constant [mol.m-2.s-1]", .scalar 3),
   ("Negative electrode reaction rate constant activation energy [J.mol-1]",
     .scalar 4),
   ("Reference temperature [K]", .scalar 298)]

/- Claim C2. -/

/-- C2 counterexample: on a mapping holding exactly one pre-multiplier
entry and its three consumed inputs, `build_exchange_current_density`
leaves the activation-energy entry in the mapping, so the claim that it
"deletes all three consumed inputs (the pre-multiplier entry, the
reaction-rate-constant entry, and the activation-energy entry)" is false:
only the first two are deleted. -/
theorem C2_counterexample :
    build_exchange_current_density C2pm = .ok
      [("Negative electrode reaction rate constant activation energy [J.mol-1]",
         .scalar 4),
       ("Reference temperature [K]", .scalar 298),
       ("Negative electrode exchange-current density [A.m-2]",
         .j0func (FARADAY * 3) 4 298 (.scalar 2))] ∧
    alookup
      [("Negative electrode reaction rate constant activation energy [J.mol-1]",
         (.scalar 4 : PValue)),
       ("Reference temperature [K]", .scalar 298),
       ("Negative electrode exchange-current density [A.m-2]",
         .j0func (FARADAY * 3) 4 298 (.scalar 2))]
      "Negative electrode reaction rate constant activation energy [J.mol-1]"
      = some (.scalar 4) := ⟨rfl, rfl⟩

/-- C2 (amended): for every parameter mapping whose unique
pre-multiplier entry is `param` (with its reaction-rate-constant,
activation-energy and reference-temperature inputs present as scalars),
`build_exchange_current_density` installs the synthesized combined
exchange-current-density function under the canonical parameter name and
deletes two of the three consumed inputs — the pre-multiplier entry and
the reaction-rate-constant entry; the activation-energy entry is read but
left in the mapping unchanged. -/
theorem C2_build_exchange_current_density (pm : ParamMap) (param : String)
    (r e T : ℚ) (premul : PValue)
    (hsub : (akeys pm).filter (fun k => strContains k tag_j0) = [param])
    (hrate : alookup pm (j0_rate_key param) = some (.scalar r))
    (hea : alookup pm (j0_Ea_key param) = some (.scalar e))
    (htref : alookup pm "Reference temperature [K]" = some (.scalar T))
    (hprem : alookup pm param = some premul)
    (h1 : j0_canonical_key param ≠ param)
    (h2 : j0_canonical_key param ≠ j0_rate_key param)
    (h3 : j0_Ea_key param ≠ param)
    (h4 : j0_Ea_key param ≠ j0_rate_key param)
    (h5 : j0_Ea_key param ≠ j0_canonical_key param)
    (h6 : param ≠ j0_rate_key param) :
    ∃ pm1, build_exchange_current_density pm = .ok pm1 ∧
      alookup pm1 (j0_canonical_key param) =
        some (.j0func (FARADAY * r) e T premul) ∧
      alookup pm1 param = none ∧
      alookup pm1 (j0_rate_key param) = none ∧
      alookup pm1 (j0_Ea_key param) = some (.scalar e) := by
  refine ⟨aerase (aerase (aset pm (j0_canonical_key param)
      (.j0func (FARADAY * r) e T premul)) param) (j0_rate_key param),
    ?_, ?_, ?_, ?_, ?_⟩
  · simp [build_exchange_current_density, hsub, build_j0_step,
      pmGetScalar_of_lookup hrate, pmGetScalar_of_lookup hea,
      pmGetScalar_of_lookup htref, pmGet_of_lookup hprem]
  · rw [alookup_aerase_ne _ h2, alookup_aerase_ne _ h1, alookup_aset_self]
  · rw [alookup_aerase_ne _ h6, alookup_aerase_self]
  · rw [alookup_aerase_self]
  · rw [alookup_aerase_ne _ h4, alookup_aerase_ne _ h3,
      alookup_aset_ne _ _ h5, hea]

/-- C2 witness: the amended theorem applied to the concrete mapping
`C2pm`. -/
theorem C2_build_exchange_current_density_witness :
    ∃ pm1, build_exchange_current_density C2pm = .ok pm1 ∧
      alookup pm1 (j0_canonical_key
        "Negative electrode exchange-current density pre-multiplier") =
        some (.j0func (FARADAY * 3) 4 298 (.scalar 2)) ∧
      alookup pm1
        "Negative electrode exchange-current density pre-multiplier" = none ∧
      alookup pm1 (j0_rate_key
        "Negative electrode exchange-current density pre-multiplier") = none ∧
      alookup pm1 (j0_Ea_key
        "Negative electrode exchange-current density pre-multiplier") =
        some (.scalar 4) := by
  exact C2_build_exchange_current_density C2pm
    "Negative electrode exchange-current density pre-multiplier"
    3 4 298 (.scalar 2) rfl rfl rfl rfl rfl (by decide) (by decide)
    (by decide) (by decide) (by decide) (by decide)

/- Claim C6. -/

/-- C6: calling `get_params` with `degradation_state={"LLI": 0.1}` and
`blended_electrode=(True, False)` fails with the degradation-combination
configuration error for every choice of external collaborators — in
particular the result does not depend on the base-set loader, so the
error is raised before the base parameter mapping is even loaded and no
parameter mapping state is created or mutated. -/
theorem C6_degradation_blend_fails_before_load (ext : Externals)
    (fp : String) :
    get_params ext fp { defaultArgs with
        degradation_state := some [("LLI", 1/10)],
        blended_electrode := some (true, false) } =
      .error (.notImplementedError
        "Degradation state is only supported for single-phase electrodes with no hysteresis.") :=
  rfl

/- Claim C8. -/

/-- C8: `apply_trim_model_events` with `SOC_init=0.99` keeps exactly the
events whose name does not contain "Maximum voltage" (so any "Minimum
voltage" event survives), and with `SOC_init=0.5` removes no events at
all. -/
theorem C8_trim_model_events (model : Model) :
    (∀ event, event ∈ (apply_trim_model_events model (99/100)).events ↔
      (event ∈ model.events ∧
        strContains event.name "Maximum voltage" = false)) ∧
    apply_trim_model_events model (1/2) = model := by
  constructor
  · intro event
    unfold apply_trim_model_events
    rw [if_pos (by norm_num : (99 : ℚ)/100 > 1 - 1/20)]
    simp [List.mem_filter]
  · unfold apply_trim_model_events
    rw [if_neg (by norm_num : ¬((1 : ℚ)/2 > 1 - 1/20)),
      if_neg (by norm_num : ¬((1 : ℚ)/2 < 1/20))]

/- Claim C7. -/

/-- C7: per electrode/phase, when the charge- and discharge-branch OCP
entries are not both present, `get_hysteresis_model_by_electrode`
resolves the phase to "single" even though a zero-state or one-state
model was requested; when both are present it resolves to the requested
model's PyBaMM name. -/
theorem C7_data_availability_overrides_request (hysteresis_model : String)
    (pm : ParamMap) (electrode phase : String)
    (h : hysteresis_model = "zero-state" ∨ hysteresis_model = "one-state") :
    (¬(acontains pm (ocp_branch_key phase electrode "charge") = true ∧
       acontains pm (ocp_branch_key phase electrode "discharge") = true) →
      get_hysteresis_model_by_electrode hysteresis_model pm electrode
        [phase] = .ok (.single "single")) ∧
    ((acontains pm (ocp_branch_key phase electrode "charge") = true ∧
      acontains pm (ocp_branch_key phase electrode "discharge") = true) →
      get_hysteresis_model_by_electrode hysteresis_model pm electrode
        [phase] = .ok (.single
          (if hysteresis_model = "zero-state" then "current sigmoid"
           else "Wycisk"))) := by
  have hdata : _has_hysteresis_data pm electrode phase =
      (acontains pm (ocp_branch_key phase electrode "charge") &&
       acontains pm (ocp_branch_key phase electrode "discharge")) := by
    simp [_has_hysteresis_data, HYSTERESIS_BRANCHES_ELECTRODE]
  constructor
  · intro hn
    have hb : _has_hysteresis_data pm electrode phase = false := by
      rw [hdata]
      cases hc : acontains pm (ocp_branch_key phase electrode "charge") <;>
        cases hd : acontains pm (ocp_branch_key phase electrode "discharge") <;>
        simp_all
    rcases h with h | h <;> subst h <;>
      simp [get_hysteresis_model_by_electrode, hb, pure, Except.pure]
  · intro hp
    have hb : _has_hysteresis_data pm electrode phase = true := by
      rw [hdata, hp.1, hp.2]; rfl
    rcases h with h | h <;> subst h <;>
      simp [get_hysteresis_model_by_electrode, hb, pure, Except.pure]

/-- A parameter set holding both branch OCP entries for the
single-phase negative electrode. -/
def C7pm : ParamMap :=
  [(ocp_branch_key "" "Negative" "charge", .table [(0, 1)]),
   (ocp_branch_key "" "Negative" "discharge", .table [(0, 2)])]

/-- C7 witness: on `C7pm` a requested zero-state model resolves to
"current sigmoid" for the negative electrode, and to "single" for the
positive electrode, which lacks the data. -/
theorem C7_data_availability_overrides_request_witness :
    get_hysteresis_model_by_electrode "zero-state" C7pm "Negative" [""] =
      .ok (.single "current sigmoid") ∧
    get_hysteresis_model_by_electrode "zero-state" C7pm "Positive" [""] =
      .ok (.single "single") := by
  constructor
  · have := (C7_data_availability_overrides_request "zero-state" C7pm
      "Negative" "" (Or.inl rfl)).2 ⟨rfl, rfl⟩
    simpa using this
  · have := (C7_data_availability_overrides_request "zero-state" C7pm
      "Positive" "" (Or.inl rfl)).1 (by decide)
    simpa using this

/- Claim C4. -/

/-- A base set with a blended (two-phase) negative electrode carrying
both branch OCP entries for each phase, and single-material data for the
positive electrode. -/
def C4pmFull : ParamMap :=
  [(ocp_branch_key "Primary: " "Negative" "charge", .scalar 1),
   (ocp_branch_key "Primary: " "Negative" "discharge", .scalar 2),
   (ocp_branch_key "Secondary: " "Negative" "charge", .scalar 3),
   (ocp_branch_key "Secondary: " "Negative" "discharge", .scalar 4),
   ("Maximum concentration in positive electrode [mol.m-3]", .scalar 2000)]

/-- The `hysteresis_model="none"`, `hysteresis_branch="charge"` call on
a blended negative electrode. -/
def argsC4 : Args := { defaultArgs with
  blended_electrode := some (true, false)
  hysteresis_branch := "charge"
  trim_model_events := false }

/-- C4 failing input: calling `get_params` with `hysteresis_model =
"none"` and `hysteresis_branch = "charge"` on a blended negative
electrode whose every phase has both branch OCP entries.  The call
returns normally and deletes the branch keys, and the first phase's
canonical OCP does receive the charge-branch data (scalar 1) — but the
second phase's canonical OCP receives the *discharge*-branch data
(scalar 4, third and fourth conjuncts), not its original charge-branch
data (scalar 3, second conjunct): the deletion loop of
`apply_hysteresis_branch` (params.py line 429) shadows the outer
`branch` variable, so every phase after the first reads the last list
entry's branch. -/
theorem C4_shadowed_branch_code_bug :
    (get_params (extWith C4pmFull) "f" argsC4).map (fun r =>
      (alookup r.1 (ocp_key "Primary: " "Negative"),
       alookup r.1 (ocp_key "Secondary: " "Negative"),
       alookup r.1 (ocp_branch_key "Secondary: " "Negative" "charge"),
       alookup r.1 (ocp_branch_key "Secondary: " "Negative" "discharge"))) =
      .ok (some (.scalar 1), some (.scalar 4), none, none) ∧
    alookup C4pmFull (ocp_branch_key "Secondary: " "Negative" "charge") =
      some (.scalar 3) ∧
    alookup C4pmFull (ocp_branch_key "Secondary: " "Negative" "discharge") =
      some (.scalar 4) := ⟨rfl, rfl, rfl⟩

/- Claims C3 and C10: `apply_degradation_state`. -/

/-- `applyLAM` on a scalar volume fraction always succeeds and is the
identity when the loss factor is absent. -/
theorem applyLAM_scalar (ds : List (String × ℚ)) (lf : String) (a : ℚ) :
    ∃ b, applyLAM ds lf (.scalar a) = .ok (.scalar b) ∧
      (dsGet ds lf = none → b = a) := by
  cases h : dsGet ds lf with
  | none =>
    exact ⟨a, by simp [applyLAM, h, pure, Except.pure], fun _ => rfl⟩
  | some l =>
    refine ⟨a * (1 - l), by simp [applyLAM, h, toScalarE, pure, Except.pure],
      fun hc => ?_⟩
    simp [h] at hc

/-- `applyLAM` is the identity when the loss factor is absent. -/
theorem applyLAM_none {ds : List (String × ℚ)} {lf : String} (v : PValue)
    (h : dsGet ds lf = none) : applyLAM ds lf v = .ok v := by
  simp [applyLAM, h, pure, Except.pure]

/-- Every entry contributed by `riFarEntry` is keyed by its kinetic
parameter. -/
theorem riFarEntry_keys {pm : ParamMap} {ds : List (String × ℚ)}
    {lf p : String} {l : ParamMap} (h : riFarEntry pm ds lf p = .ok l) :
    ∀ q ∈ l, q.1 = p := by
  unfold riFarEntry at h
  cases hd : dsGet ds lf with
  | none =>
    rw [hd] at h
    simp only [pure, Except.pure, Except.ok.injEq] at h
    subst h; simp
  | some y =>
    rw [hd] at h
    cases hg : pmGet pm p with
    | ok v =>
      rw [hg] at h
      simp only [ok_bind, pure, Except.pure, Except.ok.injEq] at h
      subst h; simp
    | error e => rw [hg] at h; simp at h

/-- Every entry contributed by `riElectrolyteEntries` is keyed by one of
the two electrolyte parameters. -/
theorem riElectrolyteEntries_keys {pm : ParamMap} {ds : List (String × ℚ)}
    {l : ParamMap} (h : riElectrolyteEntries pm ds = .ok l) :
    ∀ q ∈ l, q.1 = "Electrolyte conductivity [S.m-1]" ∨
      q.1 = "Electrolyte diffusivity [m2.s-1]" := by
  unfold riElectrolyteEntries at h
  cases hd : dsGet ds "RI_electrolyte" with
  | none =>
    rw [hd] at h
    simp only [pure, Except.pure, Except.ok.injEq] at h
    subst h; simp
  | some y =>
    rw [hd] at h
    cases hc : pmGet pm "Electrolyte conductivity [S.m-1]" with
    | ok c =>
      rw [hc] at h
      cases hdd : pmGet pm "Electrolyte diffusivity [m2.s-1]" with
      | ok d =>
        rw [hdd] at h
        simp only [ok_bind, pure, Except.pure, Except.ok.injEq] at h
        subst h
        intro q hq
        simp only [List.mem_cons, List.not_mem_nil, or_false] at hq
        rcases hq with hq | hq <;> subst hq <;> simp
      | error e => rw [hdd] at h; simp at h
    | error e => rw [hc] at h; simp at h

/-- Every entry contributed by `r0Entry` is keyed by the contact
resistance. -/
theorem r0Entry_keys {pm : ParamMap} {ds : List (String × ℚ)}
    {l : ParamMap} (h : r0Entry pm ds = .ok l) :
    ∀ q ∈ l, q.1 = "Contact resistance [Ohm]" := by
  unfold r0Entry at h
  cases hd : dsGet ds "R0_addn [Ohm]" with
  | none =>
    rw [hd] at h
    simp only [pure, Except.pure, Except.ok.injEq] at h
    subst h; simp
  | some y =>
    rw [hd] at h
    cases hr : (match alookup pm "Contact resistance [Ohm]" with
      | some v => toScalarE v
      | none => pure 0 : Except Err ℚ) with
    | ok r =>
      rw [hr] at h
      simp only [ok_bind, pure, Except.pure, Except.ok.injEq] at h
      subst h; simp
    | error e => rw [hr] at h; simp at h

/-- `lli_scaled` is the freshly computed inventory when "LLI" is not a
key of the degradation state. -/
theorem lli_scaled_none {ext : Externals} {pm : ParamMap}
    {ds : List (String × ℚ)} (h : dsGet ds "LLI" = none) :
    lli_scaled ext pm ds = ext.calc_lithium_inventory pm := by
  simp [lli_scaled, h]

/-- C3: applying a degradation state carrying `"RI_far_NE" = y` and no
other resistance key scales the negative-electrode exchange-current
density by exactly `1/(1+y)` (via `_scale_param`, which wraps a
non-scalar value multiplicatively) and leaves the positive-electrode
exchange-current density exactly as it was. -/
theorem C3_RI_far_NE_scaling (ext : Externals) (pm : ParamMap)
    (ds : List (String × ℚ)) (y aN aP : ℚ) (v : PValue)
    (hy : dsGet ds "RI_far_NE" = some y)
    (hyP : dsGet ds "RI_far_PE" = none)
    (hyE : dsGet ds "RI_electrolyte" = none)
    (hyR : dsGet ds "R0_addn [Ohm]" = none)
    (hvfN : alookup pm "Negative electrode active material volume fraction"
      = some (.scalar aN))
    (hvfP : alookup pm "Positive electrode active material volume fraction"
      = some (.scalar aP))
    (hj0N : alookup pm "Negative electrode exchange-current density [A.m-2]"
      = some v) :
    ∃ pm1, apply_degradation_state ext pm ds = .ok pm1 ∧
      alookup pm1 "Negative electrode exchange-current density [A.m-2]" =
        some (_scale_param v (1 / (1 + y))) ∧
      alookup pm1 "Positive electrode exchange-current density [A.m-2]" =
        alookup pm "Positive electrode exchange-current density [A.m-2]" := by
  obtain ⟨bN, hbN, _⟩ := applyLAM_scalar ds "LAM_NE" aN
  obtain ⟨bP, hbP, _⟩ := applyLAM_scalar ds "LAM_PE" aP
  have hriN : riFarEntry pm ds "RI_far_NE"
      "Negative electrode exchange-current density [A.m-2]" =
      .ok [("Negative electrode exchange-current density [A.m-2]",
        _scale_param v (1 / (1 + y)))] := by
    simp [riFarEntry, hy, pmGet_of_lookup hj0N, pure, Except.pure]
  have hriP : riFarEntry pm ds "RI_far_PE"
      "Positive electrode exchange-current density [A.m-2]" = .ok [] := by
    simp [riFarEntry, hyP, pure, Except.pure]
  have hriE : riElectrolyteEntries pm ds = .ok [] := by
    simp [riElectrolyteEntries, hyE, pure, Except.pure]
  have hr0 : r0Entry pm ds = .ok [] := by
    simp [r0Entry, hyR, pure, Except.pure]
  have happ : apply_degradation_state ext pm ds = .ok (aupdate pm
      [(NCYC_KEY, .scalar (lli_scaled ext pm ds)),
       ("Negative electrode active material volume fraction", .scalar bN),
       ("Positive electrode active material volume fraction", .scalar bP),
       ("Negative electrode exchange-current density [A.m-2]",
         _scale_param v (1 / (1 + y)))]) := by
    simp [apply_degradation_state, pmGet_of_lookup hvfN,
      pmGet_of_lookup hvfP, hbN, hbP, hriN, hriP, hriE, hr0, pure,
      Except.pure]
  refine ⟨_, happ, ?_, ?_⟩
  · simp only [aupdate_cons, aupdate_nil]
    rw [alookup_aset_self]
  · rw [alookup_aupdate_not_mem]
    intro q hq
    simp only [List.mem_cons, List.not_mem_nil, or_false] at hq
    rcases hq with hq | hq | hq | hq <;> rw [hq]
    · exact (by decide :
        NCYC_KEY ≠ "Positive electrode exchange-current density [A.m-2]")
    · exact (by decide :
        ("Negative electrode active material volume fraction" : String) ≠
          "Positive electrode exchange-current density [A.m-2]")
    · exact (by decide :
        ("Positive electrode active material volume fraction" : String) ≠
          "Positive electrode exchange-current density [A.m-2]")
    · exact (by decide :
        ("Negative electrode exchange-current density [A.m-2]" : String) ≠
          "Positive electrode exchange-current density [A.m-2]")

/-- A concrete mapping holding volume fractions and both kinetic
parameters. -/
def C3pm : ParamMap :=
  [("Negative electrode active material volume fraction", .scalar 1),
   ("Positive electrode active material volume fraction", .scalar 1),
   ("Negative electrode exchange-current density [A.m-2]", .scalar 6),
   ("Positive electrode exchange-current density [A.m-2]", .scalar 8)]

/-- C3 witness: the theorem applied to `C3pm` and the degradation state
`{"RI_far_NE": 1/2}`. -/
theorem C3_RI_far_NE_scaling_witness :
    ∃ pm1, apply_degradation_state (extWith baseTest) C3pm
        [("RI_far_NE", 1/2)] = .ok pm1 ∧
      alookup pm1 "Negative electrode exchange-current density [A.m-2]" =
        some (_scale_param (.scalar 6) (1 / (1 + 1/2))) ∧
      alookup pm1 "Positive electrode exchange-current density [A.m-2]" =
        alookup C3pm "Positive electrode exchange-current density [A.m-2]" :=
  C3_RI_far_NE_scaling (extWith baseTest) C3pm [("RI_far_NE", 1/2)]
    (1/2) 1 1 (.scalar 6) rfl rfl rfl rfl rfl rfl rfl

/-- C10: whenever `apply_degradation_state` succeeds it writes the
total-cyclable-lithium-inventory parameter (equal to the freshly
computed inventory when "LLI" is absent) and writes back both
electrodes' active-material volume fractions (equal to their original
values when the corresponding LAM key is absent), regardless of which
degradation modes are present. -/
theorem C10_always_writes_inventory_and_volume_fractions (ext : Externals)
    (pm : ParamMap) (ds : List (String × ℚ)) (vN vP : PValue)
    (pm1 : ParamMap)
    (hvfN : alookup pm "Negative electrode active material volume fraction"
      = some vN)
    (hvfP : alookup pm "Positive electrode active material volume fraction"
      = some vP)
    (hok : apply_degradation_state ext pm ds = .ok pm1) :
    alookup pm1 NCYC_KEY = some (.scalar (lli_scaled ext pm ds)) ∧
    (dsGet ds "LLI" = none → alookup pm1 NCYC_KEY =
      some (.scalar (ext.calc_lithium_inventory pm))) ∧
    (∃ w, alookup pm1
      "Negative electrode active material volume fraction" = some w) ∧
    (∃ w, alookup pm1
      "Positive electrode active material volume fraction" = some w) ∧
    (dsGet ds "LAM_NE" = none → alookup pm1
      "Negative electrode active material volume fraction" = some vN) ∧
    (dsGet ds "LAM_PE" = none → alookup pm1
      "Positive electrode active material volume fraction" = some vP) := by
  unfold apply_degradation_state at hok
  rw [pmGet_of_lookup hvfN] at hok
  simp only [ok_bind] at hok
  rw [pmGet_of_lookup hvfP] at hok
  simp only [ok_bind] at hok
  obtain ⟨vfN1, hN1, hok⟩ := bind_ok_inv hok
  obtain ⟨vfP1, hP1, hok⟩ := bind_ok_inv hok
  obtain ⟨riN, hriN, hok⟩ := bind_ok_inv hok
  obtain ⟨riP, hriP, hok⟩ := bind_ok_inv hok
  obtain ⟨riE, hriE, hok⟩ := bind_ok_inv hok
  obtain ⟨r0, hr0, hok⟩ := bind_ok_inv hok
  have hpm1 : pm1 =
      aupdate (aupdate (aupdate (aupdate (aupdate pm
        [(NCYC_KEY, .scalar (lli_scaled ext pm ds)),
         ("Negative electrode active material volume fraction", vfN1),
         ("Positive electrode active material volume fraction", vfP1)])
        riN) riP) riE) r0 := by
    have := hok
    simp only [pure, Except.pure, Except.ok.injEq] at this
    rw [← this, aupdate_append, aupdate_append, aupdate_append,
      aupdate_append]
  have hframe : ∀ K : String,
      K ≠ "Negative electrode exchange-current density [A.m-2]" →
      K ≠ "Positive electrode exchange-current density [A.m-2]" →
      K ≠ "Electrolyte conductivity [S.m-1]" →
      K ≠ "Electrolyte diffusivity [m2.s-1]" →
      K ≠ "Contact resistance [Ohm]" →
      alookup pm1 K = alookup (aupdate pm
        [(NCYC_KEY, .scalar (lli_scaled ext pm ds)),
         ("Negative electrode active material volume fraction", vfN1),
         ("Positive electrode active material volume fraction", vfP1)]) K := by
    intro K h1 h2 h3 h4 h5
    rw [hpm1,
      alookup_aupdate_not_mem _ r0 (by
        intro q hq
        rw [r0Entry_keys hr0 q hq]
        exact Ne.symm h5),
      alookup_aupdate_not_mem _ riE (by
        intro q hq
        rcases riElectrolyteEntries_keys hriE q hq with h | h <;> rw [h]
        · exact Ne.symm h3
        · exact Ne.symm h4),
      alookup_aupdate_not_mem _ riP (by
        intro q hq
        rw [riFarEntry_keys hriP q hq]
        exact Ne.symm h2),
      alookup_aupdate_not_mem _ riN (by
        intro q hq
        rw [riFarEntry_keys hriN q hq]
        exact Ne.symm h1)]
  have hncyc : alookup pm1 NCYC_KEY =
      some (.scalar (lli_scaled ext pm ds)) := by
    rw [hframe NCYC_KEY (by decide) (by decide) (by decide) (by decide)
      (by decide)]
    simp only [aupdate_cons, aupdate_nil]
    rw [alookup_aset_ne _ _ (by decide), alookup_aset_ne _ _ (by decide),
      alookup_aset_self]
  have hvN1 : alookup pm1
      "Negative electrode active material volume fraction" = some vfN1 := by
    rw [hframe _ (by decide) (by decide) (by decide) (by decide) (by decide)]
    simp only [aupdate_cons, aupdate_nil]
    rw [alookup_aset_ne _ _ (by decide), alookup_aset_self]
  have hvP1 : alookup pm1
      "Positive electrode active material volume fraction" = some vfP1 := by
    rw [hframe _ (by decide) (by decide) (by decide) (by decide) (by decide)]
    simp only [aupdate_cons, aupdate_nil]
    rw [alookup_aset_self]
  refine ⟨hncyc, ?_, ⟨vfN1, hvN1⟩, ⟨vfP1, hvP1⟩, ?_, ?_⟩
  · intro hlli
    rw [hncyc, lli_scaled_none hlli]
  · intro hlam
    have := applyLAM_none vN hlam
    rw [this] at hN1
    injection hN1 with h
    rw [hvN1, h]
  · intro hlam
    have := applyLAM_none vP hlam
    rw [this] at hP1
    injection hP1 with h
    rw [hvP1, h]

/-- A concrete mapping holding only the two volume fractions. -/
def C10pm : ParamMap :=
  [("Negative electrode active material volume fraction", .scalar 1),
   ("Positive electrode active material volume fraction", .scalar 2)]

/-- C10 witness: the theorem applied to `C10pm` and the degradation
state `{"R0_addn [Ohm]": 2}`, which names neither "LLI" nor a LAM
mode. -/
theorem C10_always_writes_witness :
    ∃ pm1, apply_degradation_state (extWith baseTest) C10pm
        [("R0_addn [Ohm]", 2)] = .ok pm1 ∧
      alookup pm1 NCYC_KEY = some (.scalar 7) ∧
      alookup pm1 "Negative electrode active material volume fraction" =
        some (.scalar 1) ∧
      alookup pm1 "Positive electrode active material volume fraction" =
        some (.scalar 2) := by
  have hok : apply_degradation_state (extWith baseTest) C10pm
      [("R0_addn [Ohm]", 2)] = .ok
      [("Negative electrode active material volume fraction", .scalar 1),
       ("Positive electrode active material volume fraction", .scalar 2),
       (NCYC_KEY, .scalar 7),
       ("Contact resistance [Ohm]", .scalar (0 + 2))] := rfl
  obtain ⟨h1, h2, _, _, h5, h6⟩ :=
    C10_always_writes_inventory_and_volume_fractions (extWith baseTest)
      C10pm [("R0_addn [Ohm]", 2)] (.scalar 1) (.scalar 2) _ rfl rfl hok
  exact ⟨_, hok, h2 rfl, h5 rfl, h6 rfl⟩

/- Claim C5. -/

/-- Requesting positive-electrode blending always fails phase
validation, whatever the mapping holds: the positive electrode's phase
list then has two entries. -/
theorem validate_phases_pos_blend (pv : ParamMap) (b : Bool) :
    _validate_phases_by_electrode pv (_get_phases_by_electrode (b, true)) =
      .error (.valueError "Positive electrode blends are not yet supported.") :=
  rfl

/-- C5: for every choice of external collaborators and of the other
arguments, calling `get_params` with a `blended_electrode` tuple whose
positive-electrode entry is `True` never returns a parameter mapping and
model. -/
theorem C5_positive_blend_never_returns (ext : Externals) (fp : String)
    (a : Args) (b : Bool) (h : a.blended_electrode = some (b, true)) :
    isOkE (get_params ext fp a) = false := by
  unfold get_params
  apply isOkE_bind_false
  intro pv
  unfold get_params_resolve
  simp only [h, Option.getD_some]
  apply isOkE_bind_false
  intro contact
  rw [validate_phases_pos_blend pv b]
  rfl

/-- C5 witness: the theorem applied to concrete collaborators and
otherwise-default arguments. -/
theorem C5_positive_blend_never_returns_witness :
    isOkE (get_params (extWith baseTest) "f"
      { defaultArgs with blended_electrode := some (false, true) }) =
      false :=
  C5_positive_blend_never_returns (extWith baseTest) "f"
    { defaultArgs with blended_electrode := some (false, true) } false rfl

/- Claim C9. -/

/-- C9 (amended): when phase validation fails on the mapping produced by
the stages up to degradation scaling, `get_params` raises exactly that
error: phase validation itself mutates nothing and no later stage runs.
The mapping `m` at that moment is the output of the earlier stages
(function synthesis, heat-transfer coefficient, degradation scaling),
not in general the unmutated base set. -/
theorem C9_phase_error_propagates (ext : Externals) (fp : String)
    (a : Args) (m : ParamMap) (copt : Bool) (e : Err)
    (h1 : pv_before_phase_validation ext fp a = .ok m)
    (h2 : contact_resistance_required m = .ok copt)
    (h3 : _validate_phases_by_electrode m
      (_get_phases_by_electrode (a.blended_electrode.getD (false, false))) =
      .error e) :
    get_params ext fp a = .error e := by
  unfold get_params
  rw [h1]
  simp only [ok_bind]
  unfold get_params_resolve
  simp only []
  rw [h2]
  simp only [ok_bind]
  rw [h3]
  rfl

/-- A base set with single-material data for the negative electrode
only. -/
def base9 : ParamMap :=
  [("Maximum concentration in negative electrode [mol.m-3]", .scalar 1000)]

/-- Arguments requesting negative-electrode blending together with a
heat-transfer coefficient. -/
def args9 : Args := { defaultArgs with
  blended_electrode := some (true, false)
  htc_ext := some 5 }

/-- C9 counterexample: with `args9` against `base9`, the
data-availability error of phase resolution is raised while the mapping
already differs from the loaded base set (the heat-transfer coefficient
was inserted by an earlier stage), so the claim that the mapping is
"unchanged from the loaded base set at the moment the error is raised"
is false. -/
theorem C9_counterexample :
    pv_before_phase_validation (extWith base9) "f" args9 = .ok
      (base9 ++ [("Total heat transfer coefficient [W.m-2.K-1]",
        .scalar 5)]) ∧
    base9 ++ [("Total heat transfer coefficient [W.m-2.K-1]",
      (.scalar 5 : PValue))] ≠ base9 ∧
    get_params (extWith base9) "f" args9 = .error (.valueError
      "No parameter data found to treat negative electrode as blended material. Try disabling the 'blended_electrode' keyword argument to get_params().") := by
  refine ⟨rfl, ?_, rfl⟩
  intro hcontra
  have hlen := congrArg List.length hcontra
  simp [base9] at hlen

/-- C9 witness: the amended theorem applied to the counterexample
scenario. -/
theorem C9_phase_error_propagates_witness :
    get_params (extWith base9) "f" args9 = .error (.valueError
      "No parameter data found to treat negative electrode as blended material. Try disabling the 'blended_electrode' keyword argument to get_params().") :=
  C9_phase_error_propagates (extWith base9) "f" args9
    (base9 ++ [("Total heat transfer coefficient [W.m-2.K-1]",
      PValue.scalar 5)])
    false _ rfl rfl rfl

/- Claim C1. -/

/-- An all-zero degradation state requested together with a zero-state
hysteresis model. -/
def argsC1zero : Args := { defaultArgs with
  degradation_state := some [("LLI", 0)]
  hysteresis_model := "zero-state"
  trim_model_events := false }

/-- The same call with no degradation state. -/
def argsC1none : Args := { defaultArgs with
  hysteresis_model := "zero-state"
  trim_model_events := false }

/-- C1 counterexample: an all-zero degradation state does not always
behave as if absent — zero-filtering happens only after argument
validation, so `{"LLI": 0}` combined with a zero-state hysteresis model
raises the degradation-combination error, while the same call with
`degradation_state=None` returns a parameter mapping.  At this input the
two calls therefore do not produce identical parameter mappings, so the
claim as stated is false. -/
theorem C1_counterexample :
    (∀ kv ∈ [(("LLI" : String), (0 : ℚ))], kv.2 = 0) ∧
    get_params (extWith baseTest) "f" argsC1zero = .error
      (.notImplementedError
        "Degradation state is only supported for single-phase electrodes with no hysteresis.") ∧
    isOkE (get_params (extWith baseTest) "f" argsC1none) = true :=
  ⟨by decide, rfl, rfl⟩

/-- C1 (amended): zero-valued entries are filtered out only after
argument validation, so an all-zero degradation state still participates
in combination validation and can raise where `None` would not; but
whenever the call with the all-zero (or empty, or absent) degradation
state returns successfully, its result — parameter mapping and model —
is identical to that of the same call with `degradation_state=None`. -/
theorem C1_zero_degradation_state_equiv (ext : Externals) (fp : String)
    (a : Args)
    (h0 : ∀ kv ∈ a.degradation_state.getD [], kv.2 = 0)
    (hok : isOkE (get_params ext fp a) = true) :
    get_params ext fp { a with degradation_state := none } =
      get_params ext fp a := by
  obtain ⟨ps, si, sdef, oi, ds0, htc, mt, hm, hb, hps, be, ah, emo, tme⟩ := a
  simp only at h0 hok ⊢
  have hf : filterDegradationState ds0 = none := by
    cases hds : ds0 with
    | none => rfl
    | some l =>
      have hl : l.filter (fun kv => kv.2 ≠ 0) = [] := by
        apply List.filter_eq_nil_iff.mpr
        intro kv hkv
        rw [hds] at h0
        simp only [Option.getD_some] at h0
        simp [h0 kv hkv]
      unfold filterDegradationState
      show (match l.filter (fun kv => kv.2 ≠ 0) with
        | [] => none
        | l' => some l') = none
      rw [hl]
  unfold get_params at hok
  obtain ⟨pv, hpv, -⟩ := isOkE_bind_inv hok
  unfold pv_before_phase_validation at hpv
  obtain ⟨u0, hvds, -⟩ := bind_ok_inv hpv
  have hval := hvds
  unfold _validate_args_get_params at hval
  obtain ⟨u1, hv1, hval⟩ := bind_ok_inv hval
  obtain ⟨u2, hv2, hval⟩ := bind_ok_inv hval
  obtain ⟨u3, hv3, hval⟩ := bind_ok_inv hval
  obtain ⟨u4, hv4, hval⟩ := bind_ok_inv hval
  obtain ⟨u5, hv5, hval⟩ := bind_ok_inv hval
  have hvnone : _validate_args_get_params sdef oi none htc mt hm hb hps
      (be.getD (false, false)) ah (emo.getD []) = .ok u0 := by
    unfold _validate_args_get_params
    rw [hv1]
    simp only [ok_bind]
    rw [hv2]
    simp only [ok_bind]
    rw [show _validate_degradation none (be.getD (false, false)) hm =
      .ok () from rfl]
    simp only [ok_bind]
    rw [hv4]
    simp only [ok_bind]
    rw [hv5]
    simp only [ok_bind]
    exact hval
  have hfn : filterDegradationState none = none := rfl
  unfold get_params pv_before_phase_validation get_params_resolve
  simp only [hf, hfn, hvds, hvnone, ok_bind]

/-- C1 witness: the amended theorem applied to a concrete successful
call carrying the all-zero degradation state `{"LLI": 0}`. -/
theorem C1_zero_degradation_state_equiv_witness :
    get_params (extWith baseTest) "f"
      { { defaultArgs with
            degradation_state := some [("LLI", 0)]
            trim_model_events := false } with degradation_state := none } =
      get_params (extWith baseTest) "f"
        { defaultArgs with
            degradation_state := some [("LLI", 0)]
            trim_model_events := false } :=
  C1_zero_degradation_state_equiv (extWith baseTest) "f"
    { defaultArgs with
        degradation_state := some [("LLI", 0)]
        trim_model_events := false }
    (by decide) rfl

end AEPB
